import Mathlib

/- Shallow embedding of the playback core of this repository:
   src/src/musicPlayer.ts, class MusicPlayer.  Pure functions below model the
   synchronous state mutations of the class; asynchronous callbacks (the
   AudioPlayerStatus.Idle handler, the per-track stateChange listener, the
   catch block of playNext) are modelled as explicit state-transformer
   functions, and the operations of the class are collected in a step
   relation over which reachability is defined. -/

/-- Repeat mode of the player: source line 67,
    `private repeat: 'off' | 'single' | 'all' = 'off'`. -/
inductive RepeatMode
  | off
  | single
  | all
deriving DecidableEq

/-- QueueItem interface, source lines 40-46.  `filePath` is the optional
    temp-file path (`filePath?: string`). -/
structure QueueItem where
  title : String
  url : String
  duration : String
  thumbnail : String
  filePath : Option String
deriving DecidableEq

/-- The mutable fields of class MusicPlayer (source lines 57-67).
    `connection` is `some ()` when a VoiceConnection object is held and
    `none` when the TS field is null.  The TS field `repeat` is called
    `repeatMode` here because `repeat` is reserved in Lean. -/
structure MusicPlayer where
  queue : List QueueItem
  connection : Option Unit
  downloading : Bool
  currentlyPlaying : Option QueueItem
  repeatMode : RepeatMode
deriving DecidableEq

/-- Initial field values of a freshly constructed MusicPlayer
    (source lines 59-67): empty queue, null connection, not downloading,
    nothing playing, repeat off. -/
def MusicPlayer.initialState : MusicPlayer :=
  { queue := [], connection := none, downloading := false,
    currentlyPlaying := none, repeatMode := RepeatMode.off }

/-- formatDuration, source lines 650-654: `minutes:seconds` with the
    seconds zero-padded to two digits (`padStart(2, '0')`).  Callers pass a
    whole number of seconds (they apply Math.floor first); Nat division
    models the flooring division of the source. -/
def MusicPlayer.formatDuration (seconds : Nat) : String :=
  let minutes := seconds / 60
  let remainingSeconds := seconds % 60
  let secStr := toString remainingSeconds
  let secStr := if secStr.length < 2 then "0" ++ secStr else secStr
  s!"{minutes}:{secStr}"

/-- Queue item built by handleYoutubeSingleVideo, source lines 504-509:
    `title: videoInfo.title || 'Unknown Title'`, the given url,
    formatted floored duration, `thumbnail: videoInfo.thumbnail || ''`,
    and no filePath. -/
def MusicPlayer.mkYoutubeSingleItem (title : Option String) (url : String)
    (durationSeconds : Nat) (thumbnail : Option String) : QueueItem :=
  { title := title.getD "Unknown Title", url := url,
    duration := MusicPlayer.formatDuration durationSeconds,
    thumbnail := thumbnail.getD "", filePath := none }

/-- Queue item built per playlist entry by handleYoutubePlaylist, source
    lines 486-491: `title: item.snippet?.title || 'Unknown Title'`, the
    watch URL of the entry, formatted floored duration, default thumbnail
    or '', and no filePath. -/
def MusicPlayer.mkYoutubePlaylistItem (title : Option String) (videoUrl : String)
    (durationSeconds : Nat) (thumbnail : Option String) : QueueItem :=
  { title := title.getD "Unknown Title", url := videoUrl,
    duration := MusicPlayer.formatDuration durationSeconds,
    thumbnail := thumbnail.getD "", filePath := none }

/-- Raw inputs of one resolved Spotify track (name, primary artist, the
    YouTube url found for it, duration in ms, album image). -/
structure SpotifyTrackData where
  name : String
  artist : String
  videoUrl : String
  durationMs : Nat
  albumImage : Option String
deriving DecidableEq

/-- Queue item built per playlist track by handleSpotifyUrl, source lines
    338-343: title `name - artist`, the found video url, duration from
    `Math.floor(duration_ms / 1000)`, album image or '', and no filePath. -/
def MusicPlayer.mkSpotifyPlaylistItem (d : SpotifyTrackData) : QueueItem :=
  { title := s!"{d.name} - {d.artist}", url := d.videoUrl,
    duration := MusicPlayer.formatDuration (d.durationMs / 1000),
    thumbnail := d.albumImage.getD "", filePath := none }

/-- Queue item built for a single Spotify track by handleSpotifyUrl, source
    lines 377-383: title is the track name alone, otherwise as for a
    playlist track; again no filePath. -/
def MusicPlayer.mkSpotifySingleItem (d : SpotifyTrackData) : QueueItem :=
  { title := d.name, url := d.videoUrl,
    duration := MusicPlayer.formatDuration (d.durationMs / 1000),
    thumbnail := d.albumImage.getD "", filePath := none }

/-- Appending resolved items to the queue: `this.queue.push(...items)`
    (source line 421) and the single-item pushes at lines 486 and 504. -/
def MusicPlayer.enqueue (s : MusicPlayer) (items : List QueueItem) : MusicPlayer :=
  { s with queue := s.queue ++ items }

/-- The condition under which play() starts the playback cycle after
    enqueueing, source line 454:
    `if (this.queue.length === 1 && !this.downloading) await this.playNext()`. -/
def MusicPlayer.playTriggersPlayNext (s : MusicPlayer) : Bool :=
  s.queue.length == 1 && !s.downloading

/-- Early-return guard of playNext, source line 553:
    `if (this.queue.length === 0 && this.repeat !== 'all') return`. -/
def MusicPlayer.playNextGuardFires (s : MusicPlayer) : Bool :=
  s.queue.length == 0 && !(s.repeatMode == RepeatMode.all)

/-- Spread copy `{ ...current }` of the dequeued item (source line 567).
    When `current` is the undefined produced by shifting an empty queue,
    the JS spread `{ ...undefined }` evaluates to the empty object `{}`,
    modelled as an item with every property absent/empty (in particular its
    `filePath` is unset). -/
def MusicPlayer.spreadCopy : Option QueueItem → QueueItem
  | some i => i
  | none => { title := "", url := "", duration := "", thumbnail := "", filePath := none }

/-- Selection step of playNext, source lines 558-568.  Under repeat
    'single' with a currently-playing item the current item is reused and
    the queue untouched; otherwise the head is shifted off
    (`current = this.queue.shift()!`) and, under repeat 'all', a copy of it
    pushed to the tail.  The first component is the selected item; `none`
    models the undefined that the non-null assertion hides when the queue
    is empty. -/
def MusicPlayer.playNextSelect (s : MusicPlayer) : Option QueueItem × MusicPlayer :=
  if s.repeatMode = RepeatMode.single ∧ s.currentlyPlaying.isSome then
    (s.currentlyPlaying, s)
  else
    let current := s.queue.head?
    let q := s.queue.tail
    let q := if s.repeatMode = RepeatMode.all then q ++ [MusicPlayer.spreadCopy current] else q
    (current, { s with queue := q })

/-- State after the selection step of playNext. -/
def MusicPlayer.playNextSelectState (s : MusicPlayer) : MusicPlayer :=
  (MusicPlayer.playNextSelect s).2

/-- Start of the try block of playNext, source line 572:
    `this.downloading = true`. -/
def MusicPlayer.playNextTryStart (s : MusicPlayer) : MusicPlayer :=
  { s with downloading := true }

/-- State reached when the try block of playNext succeeds, source lines
    572-592: downloading is set back to false after the download resolves
    and the selected item becomes currentlyPlaying. -/
def MusicPlayer.playNextSuccessState (s : MusicPlayer) : MusicPlayer :=
  match (MusicPlayer.playNextSelect s).1 with
  | some c =>
      { (MusicPlayer.playNextSelect s).2 with downloading := false, currentlyPlaying := some c }
  | none => (MusicPlayer.playNextSelect s).2

/-- Catch block of playNext, source lines 610-616: clear currentlyPlaying,
    shift the (current) head off the queue, clear the downloading flag.
    The retry `setTimeout(() => this.playNext(), 5000)` is recorded by the
    constant `downloadRetryDelayMs`. -/
def MusicPlayer.playNextCatch (s : MusicPlayer) : MusicPlayer :=
  { s with currentlyPlaying := none, queue := s.queue.tail, downloading := false }

/-- Backoff of the catch block of playNext, source line 615. -/
def MusicPlayer.downloadRetryDelayMs : Nat := 5000

/-- Queue shift done by the per-track stateChange listener when the player
    transitions to Idle, source line 601. -/
def MusicPlayer.onStateChangeIdleShift (s : MusicPlayer) : MusicPlayer :=
  { s with queue := s.queue.tail }

/-- Delay of the listener's rescheduling `setTimeout(() => this.playNext(), 1000)`,
    source line 603. -/
def MusicPlayer.advanceRetryDelayMs : Nat := 1000

/-- Condition of the temp-file deletion branch of the constructor's Idle
    handler, source lines 105-106: `const finished = this.queue.shift();
    if (finished?.filePath) ...`. -/
def MusicPlayer.idleHandlerDeleteFires (s : MusicPlayer) : Bool :=
  (s.queue.head?.bind QueueItem.filePath).isSome

/-- Queue shift done by the constructor's persistent
    `AudioPlayerStatus.Idle` handler, source line 105. -/
def MusicPlayer.idleHandlerShift (s : MusicPlayer) : MusicPlayer :=
  { s with queue := s.queue.tail }

/-- Combined synchronous effect of one track completion before playNext is
    re-entered: the audio player emits 'stateChange' and then the
    Idle status event, so the per-track listener's shift (line 601) runs,
    then the constructor handler's shift (line 105).  (The handler then
    calls playNext, modelled by the separate playNext steps.) -/
def MusicPlayer.completionHandlers (s : MusicPlayer) : MusicPlayer :=
  MusicPlayer.idleHandlerShift (MusicPlayer.onStateChangeIdleShift s)

/-- stop(), source lines 620-626: the queue is reset to [], the audio
    player stopped, the connection destroyed and nulled.  No other field is
    written; in particular currentlyPlaying is not cleared. -/
def MusicPlayer.stop (s : MusicPlayer) : MusicPlayer :=
  { s with queue := [], connection := none }

/-- setRepeat, source lines 541-549: only the repeat mode is written. -/
def MusicPlayer.setRepeatMode (s : MusicPlayer) (m : RepeatMode) : MusicPlayer :=
  { s with repeatMode := m }

/-- The 'error' handler of the audio player, source lines 90-94: shift the
    queue and reschedule playNext after one second. -/
def MusicPlayer.playerErrorShift (s : MusicPlayer) : MusicPlayer :=
  { s with queue := s.queue.tail }

/-- One observable operation of the player: the enqueue sites, the success
    and failure outcomes of a playNext cycle, the synchronous handler work
    of a track completion, the audio-player error handler, connection
    establishment and loss (ensureConnection, lines 146-188), stop, and
    setRepeat. -/
inductive MusicPlayer.Step : MusicPlayer → MusicPlayer → Prop
  | enqueueYoutubeSingle (s : MusicPlayer) (title : Option String) (url : String)
      (d : Nat) (th : Option String) :
      MusicPlayer.Step s (MusicPlayer.enqueue s [MusicPlayer.mkYoutubeSingleItem title url d th])
  | enqueueYoutubePlaylistEntry (s : MusicPlayer) (title : Option String) (videoUrl : String)
      (d : Nat) (th : Option String) :
      MusicPlayer.Step s (MusicPlayer.enqueue s [MusicPlayer.mkYoutubePlaylistItem title videoUrl d th])
  | enqueueSpotifyPlaylist (s : MusicPlayer) (ds : List SpotifyTrackData) :
      MusicPlayer.Step s (MusicPlayer.enqueue s (ds.map MusicPlayer.mkSpotifyPlaylistItem))
  | enqueueSpotifySingle (s : MusicPlayer) (d : SpotifyTrackData) :
      MusicPlayer.Step s (MusicPlayer.enqueue s [MusicPlayer.mkSpotifySingleItem d])
  | playNextSuccess (s : MusicPlayer) (c : QueueItem)
      (hg : MusicPlayer.playNextGuardFires s = false)
      (hconn : s.connection.isSome)
      (hc : (MusicPlayer.playNextSelect s).1 = some c) :
      MusicPlayer.Step s (MusicPlayer.playNextSuccessState s)
  | playNextFailure (s : MusicPlayer)
      (hg : MusicPlayer.playNextGuardFires s = false) :
      MusicPlayer.Step s
        (MusicPlayer.playNextCatch (MusicPlayer.playNextTryStart (MusicPlayer.playNextSelect s).2))
  | trackCompleted (s : MusicPlayer) (c : QueueItem)
      (hc : s.currentlyPlaying = some c) :
      MusicPlayer.Step s (MusicPlayer.completionHandlers s)
  | playerEngineError (s : MusicPlayer) :
      MusicPlayer.Step s (MusicPlayer.playerErrorShift s)
  | connectionEstablished (s : MusicPlayer) :
      MusicPlayer.Step s { s with connection := some () }
  | connectionLost (s : MusicPlayer) :
      MusicPlayer.Step s { s with connection := none }
  | stopPlayer (s : MusicPlayer) :
      MusicPlayer.Step s (MusicPlayer.stop s)
  | setRepeat (s : MusicPlayer) (m : RepeatMode) :
      MusicPlayer.Step s (MusicPlayer.setRepeatMode s m)

/-- A state is reachable when some sequence of operations produces it from
    a freshly constructed player. -/
def MusicPlayer.Reachable (s : MusicPlayer) : Prop :=
  Relation.ReflTransGen MusicPlayer.Step MusicPlayer.initialState s

/-- Concrete items used in the concrete evaluations below. -/
def itemA : QueueItem :=
  { title := "A", url := "https://a", duration := "3:05", thumbnail := "", filePath := none }

def itemB : QueueItem :=
  { title := "B", url := "https://b", duration := "0:30", thumbnail := "", filePath := none }

def itemC : QueueItem :=
  { title := "C", url := "https://c", duration := "1:00", thumbnail := "", filePath := none }

def itemD : QueueItem :=
  { title := "D", url := "https://d", duration := "2:00", thumbnail := "", filePath := none }

/-- Primitive actions of downloadVideo (source lines 190-253): spawning the
    two external processes, progress-bar handling, piping, settling the
    promise, and the process-termination actions the spec talks about
    (which would be kill calls on the child processes). -/
inductive DLAction
  | spawnYtdlp
  | spawnFfmpeg
  | startProgressBar
  | pipeStdoutToStdin
  | resolveWithStdout
  | stopProgressBar
  | rejectWithError
  | killYtdlp
  | killFfmpeg
deriving DecidableEq

/-- Actions of the executor body of the promise returned by downloadVideo,
    source lines 192-246, in source order: create/spawn yt-dlp (199),
    spawn ffmpeg (207), start the progress bar (217), pipe yt-dlp stdout
    into ffmpeg stdin (245), and call resolve with ffmpeg's stdout (246).
    The whole body runs synchronously inside the Promise constructor. -/
def downloadVideoBodyActions : List DLAction :=
  [DLAction.spawnYtdlp, DLAction.spawnFfmpeg, DLAction.startProgressBar,
   DLAction.pipeStdoutToStdin, DLAction.resolveWithStdout]

/-- Handler for a yt-dlp process 'error' event, source lines 231-234:
    stop the progress bar and call reject. -/
def ytdlpErrorHandlerActions : List DLAction :=
  [DLAction.stopProgressBar, DLAction.rejectWithError]

/-- Handler for an ffmpeg process 'error' event, source lines 236-239:
    stop the progress bar and call reject. -/
def ffmpegErrorHandlerActions : List DLAction :=
  [DLAction.stopProgressBar, DLAction.rejectWithError]

/-- Handler for the ffmpeg 'close' event, source lines 241-243: stop the
    progress bar only. -/
def ffmpegCloseHandlerActions : List DLAction :=
  [DLAction.stopProgressBar]

/-- Whether an action settles the promise, and how. -/
inductive Settlement
  | resolved
  | rejected
deriving DecidableEq

def settlementOf : DLAction → Option Settlement
  | DLAction.resolveWithStdout => some Settlement.resolved
  | DLAction.rejectWithError => some Settlement.rejected
  | _ => none

/-- A JS promise settles with the first resolve or reject call that runs;
    every later resolve/reject call on the same promise is a no-op. -/
def firstSettlement (events : List DLAction) : Option Settlement :=
  events.findSome? settlementOf

/-- Chronological action trace of one downloadVideo call.  The executor
    body runs synchronously (ending in the resolve call at line 246);
    child-process 'error' events — including spawn failure of either
    process and decode failure — are emitted by Node only on later event
    loop ticks, i.e. strictly after the body has returned, as is the
    ffmpeg 'close' event. -/
def downloadVideoEvents (ytdlpFails ffmpegFails : Bool) : List DLAction :=
  downloadVideoBodyActions
    ++ (if ytdlpFails then ytdlpErrorHandlerActions else [])
    ++ (if ffmpegFails then ffmpegErrorHandlerActions else [])
    ++ ffmpegCloseHandlerActions

/-- How the promise returned by downloadVideo settles, given which of the
    two external processes later fail. -/
def downloadVideoOutcome (ytdlpFails ffmpegFails : Bool) : Option Settlement :=
  firstSettlement (downloadVideoEvents ytdlpFails ffmpegFails)

/-- Player with repeat off, itemA currently playing, and itemB, itemC,
    itemD pending in the queue. -/
def offPlayerPlayingA : MusicPlayer :=
  { queue := [itemB, itemC, itemD], connection := some (), downloading := false,
    currentlyPlaying := some itemA, repeatMode := RepeatMode.off }

/-- Player with repeat off, nothing playing, and itemA, itemB queued. -/
def offPlayerAB : MusicPlayer :=
  { queue := [itemA, itemB], connection := some (), downloading := false,
    currentlyPlaying := none, repeatMode := RepeatMode.off }

/-- Player with repeat all, nothing playing, and itemA, itemB queued. -/
def allPlayerAB : MusicPlayer :=
  { queue := [itemA, itemB], connection := some (), downloading := false,
    currentlyPlaying := none, repeatMode := RepeatMode.all }

/-- Player with repeat single, itemC currently playing, and itemA, itemB
    queued. -/
def singlePlayerPlayingC : MusicPlayer :=
  { queue := [itemA, itemB], connection := some (), downloading := false,
    currentlyPlaying := some itemC, repeatMode := RepeatMode.single }

/-- An idle player: connected, nothing queued, nothing playing, no download
    in flight. -/
def idlePlayer : MusicPlayer :=
  { queue := [], connection := some (), downloading := false,
    currentlyPlaying := none, repeatMode := RepeatMode.off }

/-- A player in the middle of a download. -/
def downloadingPlayer : MusicPlayer :=
  { queue := [itemA], connection := some (), downloading := true,
    currentlyPlaying := none, repeatMode := RepeatMode.off }

/-- Player with an empty queue under repeat 'all'. -/
def emptyAllPlayer : MusicPlayer :=
  { queue := [], connection := none, downloading := false,
    currentlyPlaying := none, repeatMode := RepeatMode.all }

/-- Concrete trace: set repeat to all on a fresh player. -/
def traceS1 : MusicPlayer :=
  MusicPlayer.setRepeatMode MusicPlayer.initialState RepeatMode.all

/-- Concrete trace: the voice connection is established. -/
def traceS2 : MusicPlayer := { traceS1 with connection := some () }

/-- Concrete trace: the single YouTube track enqueued. -/
def traceItemX : QueueItem :=
  MusicPlayer.mkYoutubeSingleItem (some "X") "https://x" 0 (some "t")

/-- Concrete trace: queue after the enqueue. -/
def traceS3 : MusicPlayer := MusicPlayer.enqueue traceS2 [traceItemX]

/-- Concrete trace: the track was downloaded and is playing; under repeat
    'all' its copy sits in the queue. -/
def traceS4 : MusicPlayer := MusicPlayer.playNextSuccessState traceS3

/-- Concrete trace: after the first completion both idle handlers have
    shifted the queue, leaving it empty with repeat still 'all'. -/
def traceS5 : MusicPlayer := MusicPlayer.completionHandlers traceS4

/- Helper lemmas shared by the claim theorems. -/

theorem mem_of_mem_tail {α : Type} {l : List α} {a : α} (h : a ∈ l.tail) : a ∈ l := by
  cases l with
  | nil => simp at h
  | cons x xs => exact List.mem_cons_of_mem x h

/-- The selection step never changes the repeat mode. -/
theorem MusicPlayer.playNextSelectState_repeatMode (s : MusicPlayer) :
    (MusicPlayer.playNextSelectState s).repeatMode = s.repeatMode := by
  unfold MusicPlayer.playNextSelectState MusicPlayer.playNextSelect
  split <;> rfl

/-- The selection step never changes the currently playing item. -/
theorem MusicPlayer.playNextSelectState_currentlyPlaying (s : MusicPlayer) :
    (MusicPlayer.playNextSelectState s).currentlyPlaying = s.currentlyPlaying := by
  unfold MusicPlayer.playNextSelectState MusicPlayer.playNextSelect
  split <;> rfl

/-- Under repeat 'all', the selection step on a non-empty queue shifts the
    head and pushes its copy to the tail, i.e. rotates the queue by one. -/
theorem MusicPlayer.playNextSelectState_all_queue (s : MusicPlayer)
    (h : s.repeatMode = RepeatMode.all) (a : QueueItem) (l : List QueueItem)
    (hq : s.queue = a :: l) :
    (MusicPlayer.playNextSelectState s).queue = l ++ [a] := by
  unfold MusicPlayer.playNextSelectState MusicPlayer.playNextSelect
  rw [if_neg]
  · simp [hq, h, MusicPlayer.spreadCopy]
  · rintro ⟨h1, _⟩
    rw [h] at h1
    cases h1

/-- Under repeat 'all', the selection step on a non-empty queue returns the
    head of the queue. -/
theorem MusicPlayer.playNextSelect_all_head (s : MusicPlayer)
    (h : s.repeatMode = RepeatMode.all) (a : QueueItem) (l : List QueueItem)
    (hq : s.queue = a :: l) :
    (MusicPlayer.playNextSelect s).1 = some a := by
  unfold MusicPlayer.playNextSelect
  rw [if_neg]
  · simp [hq]
  · rintro ⟨h1, _⟩
    rw [h] at h1
    cases h1

/-- Iterating the repeat-'all' selection step rotates the queue. -/
theorem MusicPlayer.iterate_select_all (s : MusicPlayer)
    (h : s.repeatMode = RepeatMode.all) (hne : s.queue ≠ []) (k : Nat) :
    (MusicPlayer.playNextSelectState^[k] s).queue = s.queue.rotate k ∧
    (MusicPlayer.playNextSelectState^[k] s).repeatMode = RepeatMode.all := by
  induction k with
  | zero => exact ⟨by simp, h⟩
  | succ k ih =>
    obtain ⟨hq, hm⟩ := ih
    have hrotne : s.queue.rotate k ≠ [] := by
      intro hcon
      exact hne (by simpa using congrArg List.length hcon)
    obtain ⟨a, l, hal⟩ := List.exists_cons_of_ne_nil hrotne
    rw [Function.iterate_succ_apply']
    constructor
    · rw [MusicPlayer.playNextSelectState_all_queue _ hm a l (hq.trans hal)]
      have h1 : (a :: l).rotate 1 = l ++ [a] := by
        simp [List.rotate_cons_succ]
      rw [← h1, ← hal, List.rotate_rotate]
    · rw [MusicPlayer.playNextSelectState_repeatMode]
      exact hm

/-- No item in the queue and no currently-playing item carries a temp-file
    path. -/
def MusicPlayer.NoTempFiles (s : MusicPlayer) : Prop :=
  (∀ i ∈ s.queue, i.filePath = none) ∧
  ∀ i, s.currentlyPlaying = some i → i.filePath = none

/-- Every item in the queue produced by the selection step already was in
    the queue, or is the spread copy of the head (or of undefined); in all
    cases its filePath stays unset when the incoming queue is clean. -/
theorem MusicPlayer.select_queue_noTemp (s : MusicPlayer)
    (h : ∀ i ∈ s.queue, i.filePath = none) :
    ∀ i ∈ (MusicPlayer.playNextSelect s).2.queue, i.filePath = none := by
  unfold MusicPlayer.playNextSelect
  split
  · exact h
  · intro i hi
    simp only at hi
    by_cases hall : s.repeatMode = RepeatMode.all
    · rw [if_pos hall] at hi
      rcases List.mem_append.mp hi with hmem | hmem
      · exact h i (mem_of_mem_tail hmem)
      · have hi2 : i = MusicPlayer.spreadCopy s.queue.head? := by simpa using hmem
        subst hi2
        cases hq : s.queue with
        | nil => simp [hq, MusicPlayer.spreadCopy]
        | cons x xs =>
          have : x.filePath = none := h x (by rw [hq]; exact List.mem_cons_self x xs)
          simpa [hq, MusicPlayer.spreadCopy] using this
    · rw [if_neg hall] at hi
      exact h i (mem_of_mem_tail hi)

/-- The item selected by the selection step is the currently-playing item
    or the head of the queue, so it carries no temp-file path in a clean
    state. -/
theorem MusicPlayer.select_item_noTemp (s : MusicPlayer)
    (hinv : MusicPlayer.NoTempFiles s) (c : QueueItem)
    (hc : (MusicPlayer.playNextSelect s).1 = some c) : c.filePath = none := by
  unfold MusicPlayer.playNextSelect at hc
  rcases hinv with ⟨hq, hcp⟩
  split at hc
  · exact hcp c hc
  · simp only at hc
    cases hqe : s.queue with
    | nil => rw [hqe] at hc; cases hc
    | cons x xs =>
      rw [hqe] at hc
      have hx : x = c := by simpa using hc
      subst hx
      exact hq x (by rw [hqe]; exact List.mem_cons_self x xs)

/-- When the selection step returns an item, the success state is the
    selection state with downloading cleared and that item playing. -/
theorem MusicPlayer.playNextSuccessState_eq (s : MusicPlayer) (c : QueueItem)
    (hc : (MusicPlayer.playNextSelect s).1 = some c) :
    MusicPlayer.playNextSuccessState s =
      { (MusicPlayer.playNextSelect s).2 with downloading := false, currentlyPlaying := some c } := by
  unfold MusicPlayer.playNextSuccessState
  rw [hc]

/-- Every single operation of the player preserves the absence of temp-file
    paths. -/
theorem MusicPlayer.step_preserves_noTemp {s t : MusicPlayer}
    (hinv : MusicPlayer.NoTempFiles s) (hstep : MusicPlayer.Step s t) :
    MusicPlayer.NoTempFiles t := by
  obtain ⟨hq, hcp⟩ := hinv
  cases hstep with
  | enqueueYoutubeSingle title url d th =>
    refine ⟨?_, hcp⟩
    intro i hi
    rcases List.mem_append.mp hi with hmem | hmem
    · exact hq i hmem
    · have : i = MusicPlayer.mkYoutubeSingleItem title url d th := by simpa using hmem
      subst this; rfl
  | enqueueYoutubePlaylistEntry title videoUrl d th =>
    refine ⟨?_, hcp⟩
    intro i hi
    rcases List.mem_append.mp hi with hmem | hmem
    · exact hq i hmem
    · have : i = MusicPlayer.mkYoutubePlaylistItem title videoUrl d th := by simpa using hmem
      subst this; rfl
  | enqueueSpotifyPlaylist ds =>
    refine ⟨?_, hcp⟩
    intro i hi
    rcases List.mem_append.mp hi with hmem | hmem
    · exact hq i hmem
    · obtain ⟨d, _, hd⟩ := List.mem_map.mp hmem
      rw [← hd]; rfl
  | enqueueSpotifySingle d =>
    refine ⟨?_, hcp⟩
    intro i hi
    rcases List.mem_append.mp hi with hmem | hmem
    · exact hq i hmem
    · have : i = MusicPlayer.mkSpotifySingleItem d := by simpa using hmem
      subst this; rfl
  | playNextSuccess c hg hconn hc =>
    rw [MusicPlayer.playNextSuccessState_eq s c hc]
    refine ⟨MusicPlayer.select_queue_noTemp s hq, ?_⟩
    intro i hi
    have : c = i := by simpa using hi
    subst this
    exact MusicPlayer.select_item_noTemp s ⟨hq, hcp⟩ c hc
  | playNextFailure hg =>
    refine ⟨?_, ?_⟩
    · intro i hi
      exact MusicPlayer.select_queue_noTemp s hq i (mem_of_mem_tail hi)
    · intro i hi
      cases hi
  | trackCompleted c hc =>
    refine ⟨?_, hcp⟩
    intro i hi
    exact hq i (mem_of_mem_tail (mem_of_mem_tail hi))
  | playerEngineError =>
    refine ⟨?_, hcp⟩
    intro i hi
    exact hq i (mem_of_mem_tail hi)
  | connectionEstablished => exact ⟨hq, hcp⟩
  | connectionLost => exact ⟨hq, hcp⟩
  | stopPlayer =>
    refine ⟨?_, hcp⟩
    intro i hi
    cases hi
  | setRepeat m => exact ⟨hq, hcp⟩

/-- Absence of temp-file paths holds in every reachable state. -/
theorem MusicPlayer.reachable_noTemp (s : MusicPlayer)
    (h : MusicPlayer.Reachable s) : MusicPlayer.NoTempFiles s := by
  induction h with
  | refl =>
    constructor
    · intro i hi; cases hi
    · intro i hi; cases hi
  | tail hr hstep ih => exact MusicPlayer.step_preserves_noTemp ih hstep

/-- Reaching the state traceS5 from a fresh player: set repeat to 'all',
    connect, enqueue one track, play it successfully, and let it complete.
    At traceS5 the constructor's Idle handler then re-enters playNext with
    an empty queue under repeat 'all'. -/
theorem traceS5_reachable : MusicPlayer.Reachable traceS5 :=
  Relation.ReflTransGen.tail
    (Relation.ReflTransGen.tail
      (Relation.ReflTransGen.tail
        (Relation.ReflTransGen.tail
          (Relation.ReflTransGen.tail Relation.ReflTransGen.refl
            (MusicPlayer.Step.setRepeat MusicPlayer.initialState RepeatMode.all))
          (MusicPlayer.Step.connectionEstablished traceS1))
        (MusicPlayer.Step.enqueueYoutubeSingle traceS2 (some "X") "https://x" 0 (some "t")))
      (MusicPlayer.Step.playNextSuccess traceS3 traceItemX (by decide) (by decide) (by decide)))
    (MusicPlayer.Step.trackCompleted traceS4 traceItemX (by decide))

/-- C1: the claim (one completed track removes exactly one queue item and
    dequeue order equals insertion order under repeat 'off') is what the
    spec intends, but the code handles each completion twice: the per-track
    stateChange listener (line 601) and the constructor's persistent Idle
    handler (line 105) each shift the queue.  Evaluating at the failing
    input: with itemA playing and [itemB, itemC, itemD] queued, one
    completion removes both itemB and itemC, and the follow-up dequeue of
    playNext selects itemD — so two items vanish unplayed and insertion
    order is not the play order. -/
theorem completion_event_removes_two_queued_tracks :
    offPlayerPlayingA.queue = [itemB, itemC, itemD] ∧
    (MusicPlayer.completionHandlers offPlayerPlayingA).queue = [itemD] ∧
    (MusicPlayer.playNextSelect (MusicPlayer.completionHandlers offPlayerPlayingA)).1
      = some itemD := by
  decide

/-- C2 counterexample: the claim says the copy of the dequeued head is
    appended to the tail only after that track starts playing.  In the
    code the push at line 567 happens in the same synchronous block as the
    shift: immediately after the selection step the queue of allPlayerAB
    is already [itemB, itemA] while the download has not begun
    (downloading still false) and nothing new is playing
    (currentlyPlaying still none); playback starts only in the later
    success state. -/
theorem repeatAll_copy_pushed_before_playback :
    (MusicPlayer.playNextSelect allPlayerAB).1 = some itemA ∧
    (MusicPlayer.playNextSelectState allPlayerAB).queue = [itemB, itemA] ∧
    (MusicPlayer.playNextSelectState allPlayerAB).downloading = false ∧
    (MusicPlayer.playNextSelectState allPlayerAB).currentlyPlaying = none ∧
    (MusicPlayer.playNextSuccessState allPlayerAB).currentlyPlaying = some itemA := by
  decide

/-- C2 (amended): under repeat 'all' the dequeue step removes the head and
    immediately appends a copy of it to the tail (before the track is
    downloaded or starts playing); each step therefore rotates the queue by
    one, the dequeued descriptor reappearing at the tail exactly once with
    the relative order of the other items preserved, and N applications of
    the step to an N-item queue restore the original queue. -/
theorem repeatAll_dequeue_rotates_and_cycles (s : MusicPlayer)
    (h : s.repeatMode = RepeatMode.all) (a : QueueItem) (l : List QueueItem)
    (hq : s.queue = a :: l) :
    (MusicPlayer.playNextSelect s).1 = some a ∧
    (MusicPlayer.playNextSelectState s).queue = l ++ [a] ∧
    (MusicPlayer.playNextSelectState^[s.queue.length] s).queue = s.queue := by
  refine ⟨MusicPlayer.playNextSelect_all_head s h a l hq,
          MusicPlayer.playNextSelectState_all_queue s h a l hq, ?_⟩
  have hiter :=
    MusicPlayer.iterate_select_all s h (by rw [hq]; exact List.cons_ne_nil a l) s.queue.length
  rw [hiter.1, List.rotate_length]

/-- C2 witness: the amended statement at the concrete two-item queue
    [itemA, itemB] under repeat 'all'. -/
theorem repeatAll_dequeue_rotates_and_cycles_witness :
    (MusicPlayer.playNextSelect allPlayerAB).1 = some itemA ∧
    (MusicPlayer.playNextSelectState allPlayerAB).queue = [itemB] ++ [itemA] ∧
    (MusicPlayer.playNextSelectState^[allPlayerAB.queue.length] allPlayerAB).queue
      = allPlayerAB.queue :=
  repeatAll_dequeue_rotates_and_cycles allPlayerAB rfl itemA [itemB] rfl

/-- C3 counterexample: stop() (lines 620-626) never writes
    currentlyPlaying, so after an explicit stop the session still reports
    the old track as currently playing — the claim's "there is no
    currently-playing track" fails at this input. -/
theorem stop_does_not_clear_currentlyPlaying :
    (MusicPlayer.stop offPlayerPlayingA).currentlyPlaying = some itemA ∧
    some itemA ≠ (none : Option QueueItem) := by
  decide

/-- C3 (amended): an explicit stop empties the queue and nulls the voice
    connection, but leaves the currently-playing pointer unchanged; the
    Idle event that audioPlayer.stop() causes only runs the two queue
    shifts on the already-empty queue, and (for repeat mode other than
    'all') the playNext it triggers returns at the early guard without
    touching currentlyPlaying. -/
theorem stop_clears_queue_and_connection_only (s : MusicPlayer)
    (h : s.repeatMode ≠ RepeatMode.all) :
    (MusicPlayer.stop s).queue = [] ∧
    (MusicPlayer.stop s).connection = none ∧
    (MusicPlayer.stop s).currentlyPlaying = s.currentlyPlaying ∧
    MusicPlayer.playNextGuardFires (MusicPlayer.completionHandlers (MusicPlayer.stop s)) = true ∧
    (MusicPlayer.completionHandlers (MusicPlayer.stop s)).currentlyPlaying
      = s.currentlyPlaying := by
  refine ⟨rfl, rfl, rfl, ?_, rfl⟩
  have hb : (s.repeatMode == RepeatMode.all) = false := by
    cases hm : s.repeatMode with
    | off => rfl
    | single => rfl
    | all => exact absurd hm h
  simp [MusicPlayer.playNextGuardFires, MusicPlayer.completionHandlers,
        MusicPlayer.idleHandlerShift, MusicPlayer.onStateChangeIdleShift,
        MusicPlayer.stop, hb]

/-- C3 witness: the amended statement at a concrete playing session. -/
theorem stop_clears_queue_and_connection_only_witness :
    (MusicPlayer.stop offPlayerPlayingA).queue = [] ∧
    (MusicPlayer.stop offPlayerPlayingA).connection = none ∧
    (MusicPlayer.stop offPlayerPlayingA).currentlyPlaying
      = offPlayerPlayingA.currentlyPlaying ∧
    MusicPlayer.playNextGuardFires
      (MusicPlayer.completionHandlers (MusicPlayer.stop offPlayerPlayingA)) = true ∧
    (MusicPlayer.completionHandlers (MusicPlayer.stop offPlayerPlayingA)).currentlyPlaying
      = offPlayerPlayingA.currentlyPlaying :=
  stop_clears_queue_and_connection_only offPlayerPlayingA (by decide)

/-- C4: while the downloading flag is true, a play request may append items
    but never passes the trigger condition of line 454, so it never invokes
    playNext and hence never starts a second download pipeline. -/
theorem enqueue_while_downloading_never_invokes_pipeline (s : MusicPlayer)
    (items : List QueueItem) (h : s.downloading = true) :
    MusicPlayer.playTriggersPlayNext (MusicPlayer.enqueue s items) = false := by
  unfold MusicPlayer.playTriggersPlayNext MusicPlayer.enqueue
  simp [h]

/-- C4 witness: a concrete enqueue during a download does not trigger the
    pipeline. -/
theorem enqueue_while_downloading_never_invokes_pipeline_witness :
    MusicPlayer.playTriggersPlayNext (MusicPlayer.enqueue downloadingPlayer [itemB]) = false :=
  enqueue_while_downloading_never_invokes_pipeline downloadingPlayer [itemB] rfl

/-- C5 counterexample: with repeat 'off' and queue [itemA, itemB], playNext
    dequeues itemA (queue becomes [itemB]); when itemA's download fails the
    catch block's queue.shift() (line 613) removes itemB — an item that was
    never attempted and is different from the failed itemA, which had
    already left the queue at dequeue time.  The claim's "removes the
    failed item (that same item, not some other item)" is false here. -/
theorem download_failure_removes_different_item :
    (MusicPlayer.playNextSelect offPlayerAB).1 = some itemA ∧
    (MusicPlayer.playNextSelectState offPlayerAB).queue = [itemB] ∧
    (MusicPlayer.playNextCatch
      (MusicPlayer.playNextTryStart (MusicPlayer.playNextSelectState offPlayerAB))).queue = [] ∧
    itemB ≠ itemA := by
  decide

/-- C5 (amended): on a download-pipeline failure the state machine clears
    currentlyPlaying, leaves the downloading flag false, and schedules the
    retry after exactly the 5000 ms backoff; but the item its queue.shift()
    removes is the head of the queue at failure time — the next pending
    item — because the failed item itself was already removed from the
    queue when it was dequeued. -/
theorem download_failure_recovery_behaviour (s : MusicPlayer) (a : QueueItem)
    (rest : List QueueItem) (hmode : s.repeatMode = RepeatMode.off)
    (hq : s.queue = a :: rest) :
    (MusicPlayer.playNextSelect s).1 = some a ∧
    (MusicPlayer.playNextCatch
      (MusicPlayer.playNextTryStart (MusicPlayer.playNextSelectState s))).currentlyPlaying
      = none ∧
    (MusicPlayer.playNextCatch
      (MusicPlayer.playNextTryStart (MusicPlayer.playNextSelectState s))).downloading
      = false ∧
    (MusicPlayer.playNextCatch
      (MusicPlayer.playNextTryStart (MusicPlayer.playNextSelectState s))).queue
      = rest.tail ∧
    MusicPlayer.downloadRetryDelayMs = 5000 := by
  have hsel1 : (MusicPlayer.playNextSelect s).1 = some a := by
    unfold MusicPlayer.playNextSelect
    rw [if_neg]
    · simp [hq]
    · rintro ⟨h1, _⟩
      rw [hmode] at h1
      cases h1
  have hselq : (MusicPlayer.playNextSelectState s).queue = rest := by
    unfold MusicPlayer.playNextSelectState MusicPlayer.playNextSelect
    rw [if_neg]
    · simp [hq, hmode]
    · rintro ⟨h1, _⟩
      rw [hmode] at h1
      cases h1
  refine ⟨hsel1, rfl, rfl, ?_, rfl⟩
  unfold MusicPlayer.playNextCatch MusicPlayer.playNextTryStart
  simp [hselq]

/-- C5 witness: the amended statement at the concrete queue
    [itemA, itemB] with repeat 'off'. -/
theorem download_failure_recovery_behaviour_witness :
    (MusicPlayer.playNextSelect offPlayerAB).1 = some itemA ∧
    (MusicPlayer.playNextCatch
      (MusicPlayer.playNextTryStart (MusicPlayer.playNextSelectState offPlayerAB))).currentlyPlaying
      = none ∧
    (MusicPlayer.playNextCatch
      (MusicPlayer.playNextTryStart (MusicPlayer.playNextSelectState offPlayerAB))).downloading
      = false ∧
    (MusicPlayer.playNextCatch
      (MusicPlayer.playNextTryStart (MusicPlayer.playNextSelectState offPlayerAB))).queue
      = [itemB].tail ∧
    MusicPlayer.downloadRetryDelayMs = 5000 :=
  download_failure_recovery_behaviour offPlayerAB itemA [itemB] rfl rfl

/-- C6 counterexample: when the fetch process fails (and even when the
    decode process fails too) the promise of downloadVideo still settles as
    resolved — the executor body calls resolve synchronously at line 246,
    before any process 'error' event can run, so the later reject calls hit
    an already-settled promise — and no kill action on either external
    process appears anywhere in the trace.  The claim's "rejects with the
    triggering error" and "both external processes are terminated" are both
    false here. -/
theorem pipeline_error_does_not_reject_or_kill :
    downloadVideoOutcome true true = some Settlement.resolved ∧
    downloadVideoOutcome true true ≠ some Settlement.rejected ∧
    DLAction.killYtdlp ∉ downloadVideoEvents true true ∧
    DLAction.killFfmpeg ∉ downloadVideoEvents true true := by
  decide

/-- C6 (amended): for every combination of fetch-stage and decode-stage
    failure, downloadVideo settles as resolved (with the decoder's stdout),
    because the resolve call runs synchronously before any error event; its
    error handlers only stop the progress bar and call the by-then dead
    reject, and neither handler terminates the other external process. -/
theorem downloadVideo_always_resolves_without_kill :
    ∀ ytdlpFails ffmpegFails : Bool,
      downloadVideoOutcome ytdlpFails ffmpegFails = some Settlement.resolved ∧
      DLAction.killYtdlp ∉ downloadVideoEvents ytdlpFails ffmpegFails ∧
      DLAction.killFfmpeg ∉ downloadVideoEvents ytdlpFails ffmpegFails := by
  intro yf ff
  cases yf <;> cases ff <;> decide

/-- C7: the claim (any successful enqueue into an idle session triggers a
    download of the head item, regardless of how many descriptors it
    appends) is the documented intent, but the trigger at line 454 tests
    `queue.length === 1`: evaluating at the failing input, a two-descriptor
    enqueue into a fully idle connected session leaves the trigger false,
    so no download ever starts. -/
theorem multi_item_enqueue_into_idle_session_no_trigger :
    idlePlayer.currentlyPlaying = none ∧
    idlePlayer.downloading = false ∧
    idlePlayer.queue = [] ∧
    (MusicPlayer.enqueue idlePlayer [itemA, itemB]).queue = [itemA, itemB] ∧
    MusicPlayer.playTriggersPlayNext (MusicPlayer.enqueue idlePlayer [itemA, itemB]) = false := by
  decide

/-- C8: the claim (under repeat 'single' every advance returns the
    currently-playing descriptor without consuming the queue head) matches
    the selection step of playNext, which indeed returns itemC and leaves
    the queue alone; but evaluating the full completion advance at the
    failing input shows the two idle handlers still shift the queue, so
    itemA and itemB are consumed from [itemA, itemB] while itemC replays. -/
theorem singleRepeat_completion_consumes_queue_heads :
    (MusicPlayer.playNextSelect singlePlayerPlayingC).1 = some itemC ∧
    (MusicPlayer.playNextSelectState singlePlayerPlayingC).queue = singlePlayerPlayingC.queue ∧
    (MusicPlayer.completionHandlers singlePlayerPlayingC).queue = [] ∧
    (MusicPlayer.playNextSelect (MusicPlayer.completionHandlers singlePlayerPlayingC)).1
      = some itemC := by
  decide

/-- C9: in every reachable state of the player, every queued item and the
    currently-playing item have no temp-file path, and therefore the
    temp-file deletion branch of the Idle handler (lines 106-112) never
    fires: no operation of the player ever assigns filePath. -/
theorem reachable_states_have_no_temp_files (s : MusicPlayer)
    (h : MusicPlayer.Reachable s) :
    (∀ i ∈ s.queue, i.filePath = none) ∧
    (∀ i, s.currentlyPlaying = some i → i.filePath = none) ∧
    MusicPlayer.idleHandlerDeleteFires s = false := by
  obtain ⟨h1, h2⟩ := MusicPlayer.reachable_noTemp s h
  refine ⟨h1, h2, ?_⟩
  unfold MusicPlayer.idleHandlerDeleteFires
  cases hq : s.queue with
  | nil => rfl
  | cons x xs =>
    have hx : x.filePath = none := h1 x (by rw [hq]; exact List.mem_cons_self x xs)
    simp [hq, hx]

/-- C9 witness: the statement at the (trivially reachable) initial state. -/
theorem reachable_states_have_no_temp_files_witness :
    MusicPlayer.idleHandlerDeleteFires MusicPlayer.initialState = false :=
  (reachable_states_have_no_temp_files MusicPlayer.initialState Relation.ReflTransGen.refl).2.2

/-- C10: whenever playNext runs with an empty queue under repeat 'all'
    (single-repeat never applies there, whatever currentlyPlaying holds),
    the early-return guard of line 553 does not fire — it requires the
    repeat mode to differ from 'all' — and the shift of the empty queue
    yields no descriptor, which the code then dereferences through the
    non-null assertion of line 564; and such a state is actually reachable:
    enqueue one track under repeat 'all', play it, and let it complete
    (the two idle-handler shifts empty the queue, including the repeat
    copy, before the handler re-enters playNext). -/
theorem emptyQueue_repeatAll_skips_guard_and_dequeues_none :
    (∀ s : MusicPlayer, s.queue = [] → s.repeatMode = RepeatMode.all →
      MusicPlayer.playNextGuardFires s = false ∧ (MusicPlayer.playNextSelect s).1 = none) ∧
    (∃ s : MusicPlayer, MusicPlayer.Reachable s ∧ s.queue = [] ∧
      s.repeatMode = RepeatMode.all ∧ s.currentlyPlaying.isSome) := by
  constructor
  · intro s hq hm
    constructor
    · unfold MusicPlayer.playNextGuardFires
      simp [hq, hm]
    · unfold MusicPlayer.playNextSelect
      rw [if_neg]
      · simp [hq]
      · rintro ⟨h1, _⟩
        rw [hm] at h1
        cases h1
  · exact ⟨traceS5, traceS5_reachable, by decide, by decide, by decide⟩

/-- C10 witness: the guard-and-dequeue part at a concrete empty-queue
    repeat-'all' state. -/
theorem emptyQueue_repeatAll_skips_guard_and_dequeues_none_witness :
    MusicPlayer.playNextGuardFires emptyAllPlayer = false ∧
    (MusicPlayer.playNextSelect emptyAllPlayer).1 = none :=
  emptyQueue_repeatAll_skips_guard_and_dequeues_none.1 emptyAllPlayer rfl rfl
